import Mathlib

/-!
Verification of the share-this-site WebRTC P2P file-transfer subsystem.

Shallow embedding of:
* the chunked transfer engine of src/components/P2PFileShare.tsx and
  src/components/P2PFileShareWebRTC.tsx (sender chunk loop with
  backpressure, receiver accumulation and finalization), plus the legacy
  polling-variant sender of src/unnamed/part_002;
* the session registry HTTP endpoints of src/unnamed/part_005
  (GET / PATCH / DELETE on p2p-sessions documents and the POST create
  endpoint with its 6-digit code generation loop);
* the ICE candidate queuing logic of P2PFileShareWebRTC.tsx
  (handleIceCandidate / flushPendingIceCandidates);
* the connection retry logic of P2PFileShare.tsx (finalizeFailure);
* the signaling relay room join logic of src/lib/server/websocket.ts
  (handleJoin).
-/

namespace ShareThisSite

/-! ## Chunked transfer engine -/

/-- CHUNK_SIZE constant from P2PFileShare.tsx and P2PFileShareWebRTC.tsx. -/
def CHUNK_SIZE : Nat := 16384

/-- MAX_BUFFERED_AMOUNT constant from P2PFileShare.tsx and
P2PFileShareWebRTC.tsx: the 16 MiB backpressure high-water mark. -/
def MAX_BUFFERED_AMOUNT : Nat := 16 * 1024 * 1024

/-- The sequence of chunk slices produced by the sender loops of
sendFileInChunks: repeatedly slice the file at the current offset with
length CHUNK_SIZE, advance the offset by the slice's byte length, and
stop once the offset reaches the file size. A file is a list of bytes
(modelled as Nat). In P2PFileShare.tsx the chunk message put on the wire
carries exactly these bytes (the PeerJS connection is opened with binary
serialization); the P2PFileShareWebRTC.tsx variant instead serializes
each chunk message with JSON.stringify, whose image is modelled
separately by webrtcChunkWireJson and does not contain these bytes. -/
def sendFileChunks (file : List Nat) : List (List Nat) :=
  if h : file = [] then []
  else file.take CHUNK_SIZE :: sendFileChunks (file.drop CHUNK_SIZE)
termination_by file.length
decreasing_by
  simp only [List.length_drop]
  have hl : 0 < file.length := List.length_pos.mpr h
  have : 0 < CHUNK_SIZE := by decide
  omega

/-- Receiver transfer state: the ordered chunk list, the running byte
total, the declared total size from the file-meta message, and the
finalized byte sequence once completion triggers (models the Blob built
by completeFileReceive). -/
structure ReceiverState where
  chunks : List (List Nat)
  receivedSize : Nat
  totalSize : Nat
  result : Option (List Nat)
deriving DecidableEq

/-- Initial receiver state after the file-meta message declaring a total
size is processed (chunk list and running total reset). -/
def initReceiver (declaredSize : Nat) : ReceiverState :=
  { chunks := [], receivedSize := 0, totalSize := declaredSize, result := none }

/-- completeFileReceive: concatenate the received chunks in arrival order
into a single byte sequence and release the chunk buffers. -/
def completeFileReceive (st : ReceiverState) : ReceiverState :=
  { st with result := some st.chunks.flatten, chunks := [] }

/-- handleIncomingChunk: append the chunk to the ordered chunk list, add
its length to the running total, and finalize via completeFileReceive when
the running total reaches the declared size. -/
def handleIncomingChunk (st : ReceiverState) (chunk : List Nat) : ReceiverState :=
  let st' := { st with
    chunks := st.chunks ++ [chunk],
    receivedSize := st.receivedSize + chunk.length }
  if 0 < st'.totalSize ∧ st'.totalSize ≤ st'.receivedSize then
    completeFileReceive st'
  else st'

/-- Deliver a list of chunk messages to the receiver in order. -/
def receiveAll (st : ReceiverState) (msgs : List (List Nat)) : ReceiverState :=
  msgs.foldl handleIncomingChunk st

/-- A JSON value, as produced by JSON.stringify and recovered by
JSON.parse: a string, a number, or an object with a field list. This is
the shape of every message the P2PFileShareWebRTC.tsx data channel
carries, since that variant sends JSON.stringify of its message
objects. -/
inductive Json where
  | jstr (s : String)
  | jnum (n : Nat)
  | jobj (fields : List (String × Json))

/-- The JSON image of the FileChunk message object sent by
P2PFileShareWebRTC.tsx sendFileInChunks (line 564,
send(JSON.stringify(chunk))): the type tag survives, but the data field
holds an ArrayBuffer, which exposes no enumerable own properties, so
JSON.stringify serializes it as the empty object — the chunk's bytes are
absent from the wire message, whatever they were. -/
def webrtcChunkWireJson (chunk : List Nat) : Json :=
  .jobj [("type", .jstr "file-chunk"), ("data", .jobj [])]

/-- The byte-free wire form every WebRTC-variant chunk message collapses
to. -/
def webrtcChunkLostJson : Json :=
  .jobj [("type", .jstr "file-chunk"), ("data", .jobj [])]

/-! ## Sender chunk-loop steps and backpressure -/

/-- The action a sender chunk-loop step takes: schedule the next file
slice read (which leads to a chunk send), wait for the outbound buffer to
drain and re-poll, declare the transfer complete, or stop because the
channel is gone. -/
inductive SenderAction where
  | readChunk (offset : Nat)
  | waitDrain
  | complete
  | stop
deriving DecidableEq

/-- sendNextChunk from P2PFileShare.tsx (lines 293-331): stop if the
connection is closed; if the data channel's bufferedAmount exceeds
MAX_BUFFERED_AMOUNT, send nothing and re-poll after 50 ms; otherwise read
the next CHUNK_SIZE slice while the offset is below the file size, else
complete. -/
def sendNextChunk (connOpen : Bool) (bufferedAmount fileSize offset : Nat) :
    SenderAction :=
  if connOpen = false then .stop
  else if MAX_BUFFERED_AMOUNT < bufferedAmount then .waitDrain
  else if offset < fileSize then .readChunk offset
  else .complete

/-- sendNextChunk from P2PFileShareWebRTC.tsx (lines 521-553): stop if
the data channel is not open; if bufferedAmount exceeds
MAX_BUFFERED_AMOUNT, send nothing and re-poll after 100 ms; complete when
the offset reached the file size, else read the next slice. -/
def sendNextChunkWebRTC (channelOpen : Bool) (bufferedAmount fileSize offset : Nat) :
    SenderAction :=
  if channelOpen = false then .stop
  else if MAX_BUFFERED_AMOUNT < bufferedAmount then .waitDrain
  else if fileSize ≤ offset then .complete
  else .readChunk offset

/-- The chunk-send step of the polling-variant sender sendFileInChunks in
src/unnamed/part_002 (lines 407-438): on each FileReader load event, if
the peer exists and is not destroyed, the chunk is sent immediately; the
channel's bufferedAmount is never consulted. Returns the chunk sent, or
none when the send is skipped. -/
def pollingSendChunk (peerDestroyed : Bool) (bufferedAmount : Nat)
    (chunk : List Nat) : Option (List Nat) :=
  if peerDestroyed then none
  else some chunk

/-! ## Session registry (src/unnamed/part_005: GET / PATCH / POST on
p2p-sessions documents) -/

/-- A stored p2p-sessions Firestore document. Timestamps are
milliseconds (toMillis). expireAt is optional because the GET and PATCH
handlers treat a missing expireAt as expired. -/
structure SessionDoc where
  fileName : String
  fileSize : Nat
  fileType : String
  createdAt : Nat
  expireAt : Option Nat
  active : Bool
  senderConnected : Bool
  receiverConnected : Bool
  senderOffer : Option String
  receiverAnswer : Option String
  senderIceCandidates : List String
  receiverIceCandidates : List String
deriving DecidableEq

/-- The expiry test shared by GET, PATCH and the create loop:
expired when expireAt is missing or expireAt.toMillis() is at or before
the current time. -/
def isExpiredDoc (d : SessionDoc) (now : Nat) : Bool :=
  match d.expireAt with
  | none => true
  | some t => t ≤ now

/-- The staleness test guarding deletion and code reuse:
expired or explicitly marked inactive (active === false). -/
def isStaleDoc (d : SessionDoc) (now : Nat) : Bool :=
  isExpiredDoc d now || d.active = false

/-- The JSON payload returned by a 200 GET response. -/
structure SessionPayload where
  code : Nat
  fileName : String
  fileSize : Nat
  fileType : String
  senderConnected : Bool
  receiverConnected : Bool
  senderOffer : Option String
  receiverAnswer : Option String
  senderIceCandidates : List String
  receiverIceCandidates : List String
deriving DecidableEq

/-- Build the GET payload from the stored document. -/
def sessionPayload (code : Nat) (d : SessionDoc) : SessionPayload :=
  { code := code
    fileName := d.fileName
    fileSize := d.fileSize
    fileType := d.fileType
    senderConnected := d.senderConnected
    receiverConnected := d.receiverConnected
    senderOffer := d.senderOffer
    receiverAnswer := d.receiverAnswer
    senderIceCandidates := d.senderIceCandidates
    receiverIceCandidates := d.receiverIceCandidates }

/-- Result of a GET request: 404 Session not found, 410 Session expired,
or 200 with the session payload. -/
inductive GetResult where
  | notFound
  | expired
  | ok (payload : SessionPayload)
deriving DecidableEq

/-- HTTP status of a GET result. -/
def getStatus : GetResult → Nat
  | .notFound => 404
  | .expired => 410
  | .ok _ => 200

/-- The GET handler of src/unnamed/part_005 (lines 6-62) acting on the
document stored under the requested code: 404 when absent; when expired
or inactive, delete the document and answer 410; otherwise answer 200
with the payload, leaving the document in place. Returns the response
and the document state after the request. -/
def getSession (code : Nat) (doc : Option SessionDoc) (now : Nat) :
    GetResult × Option SessionDoc :=
  match doc with
  | none => (.notFound, none)
  | some d =>
    if isStaleDoc d now then (.expired, none)
    else (.ok (sessionPayload code d), some d)

/-- A PATCH request body: any subset of the updatable fields
(undefined fields are absent). -/
structure PatchBody where
  senderOffer : Option String := none
  receiverAnswer : Option String := none
  senderIceCandidate : Option String := none
  receiverIceCandidate : Option String := none
  senderConnected : Option Bool := none
  receiverConnected : Option Bool := none
  active : Option Bool := none
deriving DecidableEq

/-- Firestore FieldValue.arrayUnion with a single element: append the
element at the end unless an equal element is already stored. -/
def arrayUnion (l : List String) (c : String) : List String :=
  if c ∈ l then l else l ++ [c]

/-- Field-level application of a PATCH body (src/unnamed/part_005 lines
102-132): candidate-valued fields go through FieldValue.arrayUnion, all
other present fields overwrite; absent fields leave the document
untouched. -/
def applyPatchFields (d : SessionDoc) (b : PatchBody) : SessionDoc :=
  { d with
    senderOffer := match b.senderOffer with
      | some v => some v
      | none => d.senderOffer
    receiverAnswer := match b.receiverAnswer with
      | some v => some v
      | none => d.receiverAnswer
    senderIceCandidates := match b.senderIceCandidate with
      | some c => arrayUnion d.senderIceCandidates c
      | none => d.senderIceCandidates
    receiverIceCandidates := match b.receiverIceCandidate with
      | some c => arrayUnion d.receiverIceCandidates c
      | none => d.receiverIceCandidates
    senderConnected := b.senderConnected.getD d.senderConnected
    receiverConnected := b.receiverConnected.getD d.receiverConnected
    active := b.active.getD d.active }

/-- Result of a PATCH request: 404, 410, or 200 success. -/
inductive PatchResult where
  | notFound
  | expired
  | ok
deriving DecidableEq

/-- The PATCH handler of src/unnamed/part_005 (lines 64-153) acting on
the document stored under the requested code: 404 when absent; delete
and 410 when expired or inactive; otherwise apply the field-level
updates and answer 200. -/
def patchSession (doc : Option SessionDoc) (now : Nat) (b : PatchBody) :
    PatchResult × Option SessionDoc :=
  match doc with
  | none => (.notFound, none)
  | some d =>
    if isStaleDoc d now then (.expired, none)
    else (.ok, some (applyPatchFields d b))

/-- Role of a peer in a session (sender or receiver). -/
inductive Role where
  | sender
  | receiver
deriving DecidableEq

/-- A PATCH body that appends one ICE candidate for the given role and
touches nothing else. -/
def mkCandidatePatch : Role → String → PatchBody
  | .sender, c => { senderIceCandidate := some c }
  | .receiver, c => { receiverIceCandidate := some c }

/-- The candidate list of the given role inside a GET payload. -/
def payloadCandidates : Role → SessionPayload → List String
  | .sender, p => p.senderIceCandidates
  | .receiver, p => p.receiverIceCandidates

/-- Apply a sequence of PATCH bodies one after the other, threading the
stored document through. -/
def applyPatchSeq (doc : Option SessionDoc) (now : Nat) :
    List PatchBody → Option SessionDoc
  | [] => doc
  | b :: bs => applyPatchSeq (patchSession doc now b).2 now bs

/-- Session TTL for file transfers: 30 minutes, in milliseconds. -/
def SESSION_TTL_MS : Nat := 30 * 60 * 1000

/-- generateCode from src/unnamed/part_005: a uniformly drawn value in
[100000, 999999], the decimal 6-digit range. The browser's random draw is
modelled by a seed reduced modulo 900000. -/
def generateCode (seed : Nat) : Nat :=
  100000 + seed % 900000

/-- The declared short-code format: a 6-digit decimal number. -/
def isSixDigitCode (code : Nat) : Prop :=
  100000 ≤ code ∧ code ≤ 999999

instance (code : Nat) : Decidable (isSixDigitCode code) := by
  unfold isSixDigitCode
  infer_instance

/-- The fresh session document written by the POST create handler. -/
def newSessionDoc (now : Nat) (fileName : String) (fileSize : Nat)
    (fileType : String) : SessionDoc :=
  { fileName := fileName
    fileSize := fileSize
    fileType := if fileType = "" then "application/octet-stream" else fileType
    createdAt := now
    expireAt := some (now + SESSION_TTL_MS)
    active := true
    senderConnected := true
    receiverConnected := false
    senderOffer := none
    receiverAnswer := none
    senderIceCandidates := []
    receiverIceCandidates := [] }

/-- The whole registry keyed by session code. -/
abbrev Store : Type := Nat → Option SessionDoc

/-- Write a document under a code. -/
def setStore (s : Store) (code : Nat) (d : SessionDoc) : Store :=
  fun c => if c = code then some d else s c

/-- Result of a POST create request: 400 bad request, 201 created with
the code and expiry, or 500 when no unique code was found. -/
inductive PostResult where
  | badRequest (error : String)
  | created (code : Nat) (expireAtMs : Nat)
  | exhausted (error : String)
deriving DecidableEq

/-- HTTP status of a POST result. -/
def postStatus : PostResult → Nat
  | .badRequest _ => 400
  | .created _ _ => 201
  | .exhausted _ => 500

/-- The code-generation loop of the POST handler (src/unnamed/part_005
lines 196-291): up to the remaining fuel many attempts, draw a code from
the seed stream; if no document is stored under it, or the stored
document is expired or inactive, (re)create the session there and answer
201; otherwise retry with the next seed. After the attempt bound answer
the 500 allocation-exhausted error. i is the index of the next seed. -/
def createLoop (store : Store) (now : Nat) (fileName : String)
    (fileSize : Nat) (fileType : String) (seeds : Nat → Nat) :
    Nat → Nat → PostResult × Store
  | _, 0 => (.exhausted "Failed to generate unique code", store)
  | i, fuel + 1 =>
    let code := generateCode (seeds i)
    match store code with
    | none =>
      (.created code (now + SESSION_TTL_MS),
        setStore store code (newSessionDoc now fileName fileSize fileType))
    | some d =>
      if isStaleDoc d now then
        (.created code (now + SESSION_TTL_MS),
          setStore store code (newSessionDoc now fileName fileSize fileType))
      else
        createLoop store now fileName fileSize fileType seeds (i + 1) fuel

/-- The POST create handler of src/unnamed/part_005 (lines 183-299):
reject with 400 when fileName or fileSize is falsy (empty string,
zero), otherwise run the 50-attempt code-generation loop. -/
def postCreate (store : Store) (now : Nat) (fileName : String)
    (fileSize : Nat) (fileType : String) (seeds : Nat → Nat) :
    PostResult × Store :=
  if fileName = "" ∨ fileSize = 0 then
    (.badRequest "fileName and fileSize are required", store)
  else
    createLoop store now fileName fileSize fileType seeds 0 50

/-! ## ICE candidate queuing (P2PFileShareWebRTC.tsx) -/

/-- Client-side ICE bookkeeping: the peer connection's remote
description, the pendingIceCandidatesRef queue, and the sequence of
candidates handed to addIceCandidate, in order. -/
structure IceState where
  remoteDescription : Option String
  pending : List String
  applied : List String
deriving DecidableEq

/-- The state right after createPeerConnection: no remote description,
empty queue, nothing applied. -/
def initIceState : IceState :=
  { remoteDescription := none, pending := [], applied := [] }

/-- handleIceCandidate (P2PFileShareWebRTC.tsx lines 467-487): while the
peer connection has no remote description, push the candidate onto the
pending queue; otherwise add it to the connection immediately. -/
def handleIceCandidate (st : IceState) (c : String) : IceState :=
  match st.remoteDescription with
  | none => { st with pending := st.pending ++ [c] }
  | some _ => { st with applied := st.applied ++ [c] }

/-- flushPendingIceCandidates (lines 243-265): once a remote description
is present, add every queued candidate to the connection in queue order
and empty the queue; without a remote description do nothing. -/
def flushPendingIceCandidates (st : IceState) : IceState :=
  match st.remoteDescription with
  | none => st
  | some _ => { st with applied := st.applied ++ st.pending, pending := [] }

/-- An incoming signaling event relevant to candidate handling.
remoteDescSet is the moment pc.setRemoteDescription completes inside
handleOffer (line 418) or handleAnswer (line 460); flushPending is the
flushPendingIceCandidates call that follows (lines 424 and 464). The two
are separate events because handleOffer awaits createAnswer and
setLocalDescription between them, a suspension window in which other
signaling handlers can run. -/
inductive IceEvent where
  | candidate (c : String)
  | remoteDescSet (sdp : String)
  | flushPending
deriving DecidableEq

/-- Process one signaling event. -/
def iceStep (st : IceState) : IceEvent → IceState
  | .candidate c => handleIceCandidate st c
  | .remoteDescSet sdp => { st with remoteDescription := some sdp }
  | .flushPending => flushPendingIceCandidates st

/-- Process a sequence of signaling events in order. -/
def iceRun (st : IceState) (evs : List IceEvent) : IceState :=
  evs.foldl iceStep st

/-! ## Connection attempt failure handling (P2PFileShare.tsx) -/

/-- PEER_MAX_CONNECT_ATTEMPTS constant from P2PFileShare.tsx. -/
def PEER_MAX_CONNECT_ATTEMPTS : Nat := 4

/-- The terminal failure message shown for the no-ice reason. -/
def noRouteMessage : String :=
  "No network routes were discovered. Please add a reachable TURN server or loosen firewall restrictions and try again."

/-- The terminal failure message shown for every other reason. -/
def genericFailureMessage : String :=
  "Unable to connect to the receiver. Please try again."

/-- What finalizeFailure decides to do next. -/
inductive FailureAction where
  | abortClose
  | retry (nextAttempt : Nat)
  | surface (message : String)
deriving DecidableEq

/-- finalizeFailure (P2PFileShare.tsx lines 450-489): when the attempt
context was aborted, just close the connection; otherwise, while the
attempt number is below PEER_MAX_CONNECT_ATTEMPTS, schedule a retry with
the next attempt number after the fixed delay, whatever the failure
reason; only once attempts are exhausted surface a terminal error whose
message depends on whether the reason is the no-ice one. -/
def finalizeFailure (aborted : Bool) (attempt : Nat) (reason : String) :
    FailureAction :=
  if aborted then .abortClose
  else if attempt < PEER_MAX_CONNECT_ATTEMPTS then .retry (attempt + 1)
  else .surface (if reason = "no-ice" then noRouteMessage else genericFailureMessage)

/-- The no-ice detection of inspectPeerConnection (P2PFileShare.tsx lines
543-558): ICE gathering completed with zero local candidates triggers
finalizeFailure with the no-ice reason. -/
def detectNoIce (gatheringComplete : Bool) (localCandidates : Nat) : Bool :=
  gatheringComplete && localCandidates = 0

/-! ## Signaling relay room join (src/lib/server/websocket.ts) -/

/-- A client registered in a relay room: the socket identity, the role
and the self-chosen peer id. -/
structure RelayClient where
  wsId : Nat
  role : Role
  peerId : String
deriving DecidableEq

/-- Messages the relay sends back during join handling. -/
inductive RelayMsg where
  | errorMsg (error : String)
  | joined (roomCode : String) (role : Role)
  | peerJoined (role : Role) (peerId : String)
deriving DecidableEq

/-- Printed name of a role, as interpolated into the role-conflict
error text. -/
def roleName : Role → String
  | .sender => "sender"
  | .receiver => "receiver"

/-- handleJoin (src/lib/server/websocket.ts lines 77-144) acting on the
addressed room: reject missing fields; reject with an error when the room
already has 2 members, or when a member with the same role is present
(membership unchanged in every rejection); otherwise append the client,
reply joined, and when the room holds a member whose peerId differs from
the joiner's, notify that member of the joiner and the joiner of that
member via peer-joined. Returns the room after the join and the list of
(socket, message) sends in order. -/
def handleJoin (room : List RelayClient) (wsId : Nat) (roomCode : String)
    (role : Role) (peerId : String) :
    List RelayClient × List (Nat × RelayMsg) :=
  if roomCode = "" ∨ peerId = "" then
    (room, [(wsId, .errorMsg "Missing roomCode, role, or peerId")])
  else if 2 ≤ room.length then
    (room, [(wsId, .errorMsg "Room is full")])
  else if (room.find? (fun c => c.role = role)).isSome then
    (room, [(wsId, .errorMsg (roleName role ++ " already exists in this room"))])
  else
    let room' := room ++ [⟨wsId, role, peerId⟩]
    match room'.find? (fun c => c.peerId ≠ peerId) with
    | some other =>
      (room',
        [(wsId, .joined roomCode role),
          (other.wsId, .peerJoined role peerId),
          (wsId, .peerJoined other.role other.peerId)])
    | none => (room', [(wsId, .joined roomCode role)])

/-! ## Theorems -/

lemma sendFileChunks_nil : sendFileChunks [] = [] := by
  rw [sendFileChunks]
  simp

lemma sendFileChunks_cons (file : List Nat) (h : file ≠ []) :
    sendFileChunks file =
      file.take CHUNK_SIZE :: sendFileChunks (file.drop CHUNK_SIZE) := by
  rw [sendFileChunks]
  simp [h]

/-- The emitted chunks concatenate back to the file. -/
lemma sendFileChunks_join (file : List Nat) :
    (sendFileChunks file).flatten = file := by
  by_cases h : file = []
  · subst h; simp [sendFileChunks_nil]
  · rw [sendFileChunks_cons file h]
    have ih := sendFileChunks_join (file.drop CHUNK_SIZE)
    simp [ih]
termination_by file.length
decreasing_by
  simp only [List.length_drop]
  have hl : 0 < file.length := List.length_pos.mpr h
  have : 0 < CHUNK_SIZE := by decide
  omega

/-- The number of emitted chunks is the ceiling of size / CHUNK_SIZE. -/
lemma sendFileChunks_length (file : List Nat) :
    (sendFileChunks file).length =
      (file.length + CHUNK_SIZE - 1) / CHUNK_SIZE := by
  by_cases h : file = []
  · subst h
    simp only [sendFileChunks_nil, List.length_nil, Nat.zero_add]
    decide
  · rw [sendFileChunks_cons file h]
    have ih := sendFileChunks_length (file.drop CHUNK_SIZE)
    have hl : 0 < file.length := List.length_pos.mpr h
    have hc : 0 < CHUNK_SIZE := by decide
    simp only [List.length_cons, ih, List.length_drop]
    by_cases hle : file.length ≤ CHUNK_SIZE
    · have h1 : file.length - CHUNK_SIZE = 0 := by omega
      rw [h1]
      have h2 : (0 + CHUNK_SIZE - 1) / CHUNK_SIZE = 0 :=
        Nat.div_eq_of_lt (by omega)
      have h3 : (file.length + CHUNK_SIZE - 1) / CHUNK_SIZE = 1 := by
        rw [Nat.div_eq_of_lt_le] <;> omega
      omega
    · have h1 : file.length - CHUNK_SIZE + CHUNK_SIZE - 1 + CHUNK_SIZE
          = file.length + CHUNK_SIZE - 1 := by omega
      have h2 : (file.length - CHUNK_SIZE + CHUNK_SIZE - 1 + CHUNK_SIZE) / CHUNK_SIZE
          = (file.length - CHUNK_SIZE + CHUNK_SIZE - 1) / CHUNK_SIZE + 1 :=
        Nat.add_div_right _ hc
      rw [h1] at h2
      omega
termination_by file.length
decreasing_by
  simp only [List.length_drop]
  have hl : 0 < file.length := List.length_pos.mpr h
  have : 0 < CHUNK_SIZE := by decide
  omega

/-- Running the receiver over the chunks of the remaining file, starting
from a partially filled state consistent with the declared size, finalizes
to exactly the declared bytes. -/
lemma receiveAll_spec (rest : List Nat) (done : List (List Nat)) (hrest : rest ≠ []) :
    receiveAll
      { chunks := done, receivedSize := done.flatten.length,
        totalSize := done.flatten.length + rest.length, result := none }
      (sendFileChunks rest)
    = { chunks := [], receivedSize := done.flatten.length + rest.length,
        totalSize := done.flatten.length + rest.length,
        result := some (done.flatten ++ rest) } := by
  have hc : 0 < CHUNK_SIZE := by decide
  have hl : 0 < rest.length := List.length_pos.mpr hrest
  rw [sendFileChunks_cons rest hrest]
  by_cases hle : rest.length ≤ CHUNK_SIZE
  · have htake : rest.take CHUNK_SIZE = rest := List.take_of_length_le hle
    have hdrop : rest.drop CHUNK_SIZE = [] := List.drop_eq_nil_of_le hle
    simp only [receiveAll, List.foldl_cons, handleIncomingChunk, htake, hdrop,
      sendFileChunks_nil, List.foldl_nil]
    rw [if_pos (by constructor <;> omega)]
    simp [completeFileReceive]
  · have hdrop_ne : rest.drop CHUNK_SIZE ≠ [] := by
      intro hcon
      have := congrArg List.length hcon
      simp only [List.length_drop, List.length_nil] at this
      omega
    have htlen : (rest.take CHUNK_SIZE).length = CHUNK_SIZE := by
      simp only [List.length_take]
      omega
    have ih := receiveAll_spec (rest.drop CHUNK_SIZE) (done ++ [rest.take CHUNK_SIZE]) hdrop_ne
    simp only [receiveAll, List.foldl_cons, handleIncomingChunk]
    rw [if_neg (by
      simp only [htlen, not_and, not_le, List.length_drop]
      intro _
      omega)]
    simp only [receiveAll] at ih
    have hjoin : (done ++ [rest.take CHUNK_SIZE]).flatten = done.flatten ++ rest.take CHUNK_SIZE := by
      simp
    have hjlen : (done ++ [rest.take CHUNK_SIZE]).flatten.length = done.flatten.length + CHUNK_SIZE := by
      rw [hjoin]
      simp [htlen]
    have hsum : done.flatten.length + CHUNK_SIZE + (rest.drop CHUNK_SIZE).length
        = done.flatten.length + rest.length := by
      simp only [List.length_drop]
      omega
    have happ : done.flatten ++ rest.take CHUNK_SIZE ++ rest.drop CHUNK_SIZE = done.flatten ++ rest := by
      rw [List.append_assoc, List.take_append_drop]
    rw [hjlen, hsum, hjoin, happ] at ih
    rw [htlen]
    exact ih
termination_by rest.length
decreasing_by
  simp only [List.length_drop]
  have : 0 < CHUNK_SIZE := by decide
  omega

/-- Claim C1 (amended): for every file of N bytes with N positive and
chunk size C = 16384, the P2PFileShare.tsx sender's chunked loop emits
the file's bytes as ceil(N / C) in-order chunk messages (its PeerJS
connection uses binary serialization, so the messages carry the slice
bytes), and the receiver's accumulation (append each chunk, add its
length to the running total, finalize by concatenating the chunks in
arrival order when the total reaches the declared size N) reconstructs a
byte sequence of exactly N bytes identical to the source file, for every
residue of N modulo C. The P2PFileShareWebRTC.tsx variant's sender
instead serializes each chunk message with JSON.stringify, which drops
the ArrayBuffer bytes: every chunk message it puts on the wire equals
the byte-free constant, so that variant cannot reconstruct the file. -/
theorem chunked_transfer_roundtrip (file : List Nat) (hpos : 0 < file.length) :
    (sendFileChunks file).length = (file.length + CHUNK_SIZE - 1) / CHUNK_SIZE ∧
    (receiveAll (initReceiver file.length) (sendFileChunks file)).result = some file ∧
    (∀ out, (receiveAll (initReceiver file.length) (sendFileChunks file)).result = some out →
      out.length = file.length) ∧
    ∀ chunk : List Nat, webrtcChunkWireJson chunk = webrtcChunkLostJson := by
  have hne : file ≠ [] := by
    intro hcon
    subst hcon
    simp at hpos
  have hrun := receiveAll_spec file [] hne
  simp only [List.flatten_nil, List.length_nil, Nat.zero_add, List.nil_append] at hrun
  refine ⟨sendFileChunks_length file, ?_, ?_, fun chunk => rfl⟩
  · rw [initReceiver] at *
    rw [hrun]
  · intro out hout
    rw [initReceiver] at *
    rw [hrun] at hout
    simp only [Option.some.injEq] at hout
    subst hout
    rfl

/-- Witness for chunked_transfer_roundtrip at the concrete 3-byte file
[7, 8, 9]: one chunk, reassembling to the source bytes. -/
theorem chunked_transfer_roundtrip_witness :
    0 < ([7, 8, 9] : List Nat).length ∧
    ((sendFileChunks [7, 8, 9]).length
        = (([7, 8, 9] : List Nat).length + CHUNK_SIZE - 1) / CHUNK_SIZE ∧
      (receiveAll (initReceiver ([7, 8, 9] : List Nat).length)
          (sendFileChunks [7, 8, 9])).result = some [7, 8, 9] ∧
      (∀ out, (receiveAll (initReceiver ([7, 8, 9] : List Nat).length)
          (sendFileChunks [7, 8, 9])).result = some out →
        out.length = ([7, 8, 9] : List Nat).length) ∧
      ∀ chunk : List Nat, webrtcChunkWireJson chunk = webrtcChunkLostJson) :=
  ⟨by decide, chunked_transfer_roundtrip [7, 8, 9] (by decide)⟩

/-- Counterexample to claim C1 as stated: the cited
P2PFileShareWebRTC.tsx sender emits, for the two distinct 1-byte files
[1] and [2], identical wire message sequences — each chunk message is
JSON.stringify of an object whose data field holds an ArrayBuffer,
serialized as the empty object — so no receiver-side reconstruction of
the wire messages can return both source files byte-identically. -/
theorem webrtc_chunk_serialization_counterexample :
    ([1] : List Nat) ≠ [2] ∧
    (sendFileChunks [1]).map webrtcChunkWireJson
      = (sendFileChunks [2]).map webrtcChunkWireJson ∧
    ∀ rebuild : List Json → List Nat,
      ¬(rebuild ((sendFileChunks [1]).map webrtcChunkWireJson) = [1] ∧
        rebuild ((sendFileChunks [2]).map webrtcChunkWireJson) = [2]) := by
  have h1 : sendFileChunks [1] = [[1]] := by
    rw [sendFileChunks_cons [1] (by decide), List.take_of_length_le (by decide),
      List.drop_eq_nil_of_le (by decide), sendFileChunks_nil]
  have h2 : sendFileChunks [2] = [[2]] := by
    rw [sendFileChunks_cons [2] (by decide), List.take_of_length_le (by decide),
      List.drop_eq_nil_of_le (by decide), sendFileChunks_nil]
  have hmap : (sendFileChunks [1]).map webrtcChunkWireJson
      = (sendFileChunks [2]).map webrtcChunkWireJson := by
    rw [h1, h2]
    rfl
  refine ⟨by decide, hmap, ?_⟩
  rintro rebuild ⟨ha, hb⟩
  rw [hmap] at ha
  exact absurd (ha.symm.trans hb) (by decide)

/-- Counterexample to claim C2 as stated: a sender chunk loop of this
repository (the polling-variant sendFileInChunks of src/unnamed/part_002)
issues a chunk send while the channel's outbound buffered-byte count is
one byte above the 16 MiB high-water mark: the loop performs no
bufferedAmount check at all. -/
theorem backpressure_claim_counterexample :
    MAX_BUFFERED_AMOUNT < MAX_BUFFERED_AMOUNT + 1 ∧
    pollingSendChunk false (MAX_BUFFERED_AMOUNT + 1) [27] = some [27] := by
  constructor
  · omega
  · rfl

/-- Claim C2 (amended): in the sendNextChunk-based sender loops of
P2PFileShare.tsx and P2PFileShareWebRTC.tsx, whenever the channel is open
and its outbound buffered-byte count exceeds the 16 MiB high-water mark,
the step sends nothing and schedules a re-poll (waitDrain) — in
particular it never schedules a chunk read/send; the legacy
polling-variant sender of src/unnamed/part_002 performs no such check and
sends regardless of the buffered amount. -/
theorem backpressure_no_send_above_mark (bufferedAmount fileSize offset : Nat)
    (h : MAX_BUFFERED_AMOUNT < bufferedAmount) :
    sendNextChunk true bufferedAmount fileSize offset = .waitDrain ∧
    sendNextChunkWebRTC true bufferedAmount fileSize offset = .waitDrain ∧
    (∀ chunk : List Nat, pollingSendChunk false bufferedAmount chunk = some chunk) := by
  refine ⟨?_, ?_, ?_⟩
  · simp [sendNextChunk, h]
  · simp [sendNextChunkWebRTC, h]
  · intro chunk
    rfl

/-- Witness for backpressure_no_send_above_mark at a concrete buffered
amount one byte above the mark. -/
theorem backpressure_no_send_above_mark_witness :
    MAX_BUFFERED_AMOUNT < 16 * 1024 * 1024 + 1 ∧
    (sendNextChunk true (16 * 1024 * 1024 + 1) 5 0 = .waitDrain ∧
      sendNextChunkWebRTC true (16 * 1024 * 1024 + 1) 5 0 = .waitDrain ∧
      (∀ chunk : List Nat,
        pollingSendChunk false (16 * 1024 * 1024 + 1) chunk = some chunk)) :=
  ⟨by decide, backpressure_no_send_above_mark (16 * 1024 * 1024 + 1) 5 0 (by decide)⟩

/-- Claim C4: a GET on a code whose stored document has expireAt in the
past (or active set to false) answers the SessionExpired error (410) and
deletes the document; a second GET on the now-absent document answers
SessionNotFound (404), as does a GET on a code that was never created. -/
theorem get_expired_deletes_then_not_found (code : Nat) (d : SessionDoc)
    (now : Nat)
    (h : (∃ t, d.expireAt = some t ∧ t < now) ∨ d.active = false) :
    getSession code (some d) now = (.expired, none) ∧
    getStatus (getSession code (some d) now).1 = 410 ∧
    getSession code (getSession code (some d) now).2 now = (.notFound, none) ∧
    ∀ now2 : Nat, getStatus (getSession code none now2).1 = 404 := by
  have hstale : isStaleDoc d now = true := by
    rcases h with ⟨t, ht, hlt⟩ | hact
    · simp [isStaleDoc, isExpiredDoc, ht]
      omega
    · simp [isStaleDoc, hact]
  refine ⟨?_, ?_, ?_, fun now2 => rfl⟩
  · simp [getSession, hstale]
  · simp [getSession, hstale, getStatus]
  · simp [getSession, hstale]

/-- Witness for get_expired_deletes_then_not_found: a concrete document
that expired at time 5, fetched at time 10. -/
theorem get_expired_deletes_then_not_found_witness :
    ((∃ t, (⟨"f.bin", 3, "text/plain", 0, some 5, true, true, false,
        none, none, [], []⟩ : SessionDoc).expireAt = some t ∧ t < 10) ∨
      (⟨"f.bin", 3, "text/plain", 0, some 5, true, true, false,
        none, none, [], []⟩ : SessionDoc).active = false) ∧
    (getSession 123456 (some ⟨"f.bin", 3, "text/plain", 0, some 5, true,
        true, false, none, none, [], []⟩) 10 = (.expired, none) ∧
      getStatus (getSession 123456 (some ⟨"f.bin", 3, "text/plain", 0,
        some 5, true, true, false, none, none, [], []⟩) 10).1 = 410 ∧
      getSession 123456 (getSession 123456 (some ⟨"f.bin", 3,
        "text/plain", 0, some 5, true, true, false, none, none, [],
        []⟩) 10).2 10 = (.notFound, none) ∧
      ∀ now2 : Nat, getStatus (getSession 123456 none now2).1 = 404) :=
  ⟨Or.inl ⟨5, rfl, by decide⟩,
    get_expired_deletes_then_not_found 123456 _ 10 (Or.inl ⟨5, rfl, by decide⟩)⟩

/-- Claim C10: appending an ICE candidate via PATCH is idempotent —
applying the same field-level update twice leaves the document exactly as
applying it once (for every PATCH body, candidate appends included,
because Firestore arrayUnion stores a duplicate-free union); a candidate
already present in the stored list is collapsed rather than appended; and
a duplicate-free stored candidate list stays duplicate-free under
arrayUnion. -/
theorem patch_apply_idempotent :
    (∀ (d : SessionDoc) (b : PatchBody),
      applyPatchFields (applyPatchFields d b) b = applyPatchFields d b) ∧
    (∀ (l : List String) (c : String), c ∈ l → arrayUnion l c = l) ∧
    (∀ (l : List String) (c : String), l.Nodup → (arrayUnion l c).Nodup) := by
  have hmem : ∀ (l : List String) (c : String), c ∈ arrayUnion l c := by
    intro l c
    unfold arrayUnion
    by_cases h : c ∈ l
    · simpa [h]
    · simp [h]
  have hunion : ∀ (l : List String) (c : String),
      arrayUnion (arrayUnion l c) c = arrayUnion l c := by
    intro l c
    unfold arrayUnion
    by_cases h : c ∈ l
    · simp [h]
    · simp [h]
  refine ⟨?_, ?_, ?_⟩
  · intro d b
    unfold applyPatchFields
    rcases b with ⟨so, ra, sic, ric, sc, rc, ac⟩
    cases so <;> cases ra <;> cases sic <;> cases ric <;>
      cases sc <;> cases rc <;> cases ac <;>
      simp_all [hunion, Option.getD]
  · intro l c h
    simp [arrayUnion, h]
  · intro l c h
    unfold arrayUnion
    by_cases hmem2 : c ∈ l
    · simpa [hmem2]
    · simp [hmem2, List.nodup_append, h, hmem2]

/-- Witness for patch_apply_idempotent on candidate list ["a", "b"]. -/
theorem patch_apply_idempotent_witness :
    (("a" ∈ (["a", "b"] : List String)) ∧ arrayUnion ["a", "b"] "a" = ["a", "b"]) ∧
    ((["a", "b"] : List String).Nodup ∧ (arrayUnion ["a", "b"] "c").Nodup) :=
  ⟨⟨by decide, patch_apply_idempotent.2.1 ["a", "b"] "a" (by decide)⟩,
    ⟨by decide, patch_apply_idempotent.2.2 ["a", "b"] "c" (by decide)⟩⟩

lemma mem_arrayUnion (z : String) (l : List String) (c : String) :
    z ∈ arrayUnion l c ↔ z ∈ l ∨ z = c := by
  unfold arrayUnion
  by_cases h : c ∈ l
  · simp only [if_pos h]
    constructor
    · exact Or.inl
    · rintro (hz | rfl)
      · exact hz
      · exact h
  · simp [if_neg h]

lemma isStale_candidatePatch (d : SessionDoc) (now : Nat) (r : Role)
    (c : String) :
    isStaleDoc (applyPatchFields d (mkCandidatePatch r c)) now
      = isStaleDoc d now := by
  cases r <;>
    simp [isStaleDoc, isExpiredDoc, applyPatchFields, mkCandidatePatch]

lemma applyPatchSeq_two_live (d : SessionDoc) (now : Nat) (b1 b2 : PatchBody)
    (h1 : isStaleDoc d now = false)
    (h2 : isStaleDoc (applyPatchFields d b1) now = false) :
    applyPatchSeq (some d) now [b1, b2]
      = some (applyPatchFields (applyPatchFields d b1) b2) := by
  simp [applyPatchSeq, patchSession, h1, h2]

lemma patchSeq_two_candidate_appends (code : Nat) (d : SessionDoc)
    (now : Nat) (a b : Role) (x y : String)
    (hlive : isStaleDoc d now = false) :
    ∃ p, (getSession code (applyPatchSeq (some d) now
        [mkCandidatePatch a x, mkCandidatePatch b y]) now).1 = .ok p ∧
      x ∈ payloadCandidates a p ∧ y ∈ payloadCandidates b p ∧
      (∀ z ∈ d.senderIceCandidates, z ∈ p.senderIceCandidates) ∧
      (∀ z ∈ d.receiverIceCandidates, z ∈ p.receiverIceCandidates) := by
  have hs1 : isStaleDoc (applyPatchFields d (mkCandidatePatch a x)) now = false := by
    rw [isStale_candidatePatch]
    exact hlive
  have hs2 : isStaleDoc
      (applyPatchFields (applyPatchFields d (mkCandidatePatch a x))
        (mkCandidatePatch b y)) now = false := by
    rw [isStale_candidatePatch, isStale_candidatePatch]
    exact hlive
  rw [applyPatchSeq_two_live d now _ _ hlive hs1]
  refine ⟨sessionPayload code
      (applyPatchFields (applyPatchFields d (mkCandidatePatch a x))
        (mkCandidatePatch b y)), ?_, ?_, ?_, ?_, ?_⟩
  · simp [getSession, hs2]
  · cases a <;> cases b <;>
      simp [payloadCandidates, sessionPayload, applyPatchFields,
        mkCandidatePatch, mem_arrayUnion]
  · cases a <;> cases b <;>
      simp [payloadCandidates, sessionPayload, applyPatchFields,
        mkCandidatePatch, mem_arrayUnion]
  · intro z hz
    cases a <;> cases b <;>
      simp [sessionPayload, applyPatchFields, mkCandidatePatch,
        mem_arrayUnion, hz]
  · intro z hz
    cases a <;> cases b <;>
      simp [sessionPayload, applyPatchFields, mkCandidatePatch,
        mem_arrayUnion, hz]

/-- Claim C3: for a live session, two PATCH requests that each append an
ICE candidate (run concurrently, hence serialized by the store in either
order) both end up reflected in a subsequent GET: candidate fields are
applied with field-level append (arrayUnion) semantics that preserve
every previously stored candidate, while scalar fields overwrite. -/
theorem patch_concurrent_candidate_appends (code : Nat) (d : SessionDoc)
    (now : Nat) (r1 r2 : Role) (c1 c2 : String)
    (hlive : isStaleDoc d now = false) :
    (∃ p, (getSession code (applyPatchSeq (some d) now
        [mkCandidatePatch r1 c1, mkCandidatePatch r2 c2]) now).1 = .ok p ∧
      c1 ∈ payloadCandidates r1 p ∧ c2 ∈ payloadCandidates r2 p ∧
      (∀ z ∈ d.senderIceCandidates, z ∈ p.senderIceCandidates) ∧
      (∀ z ∈ d.receiverIceCandidates, z ∈ p.receiverIceCandidates)) ∧
    (∃ p, (getSession code (applyPatchSeq (some d) now
        [mkCandidatePatch r2 c2, mkCandidatePatch r1 c1]) now).1 = .ok p ∧
      c1 ∈ payloadCandidates r1 p ∧ c2 ∈ payloadCandidates r2 p ∧
      (∀ z ∈ d.senderIceCandidates, z ∈ p.senderIceCandidates) ∧
      (∀ z ∈ d.receiverIceCandidates, z ∈ p.receiverIceCandidates)) ∧
    (∀ v : Bool,
      (applyPatchFields d { senderConnected := some v }).senderConnected = v ∧
      (applyPatchFields d { active := some v }).active = v) := by
  refine ⟨?_, ?_, ?_⟩
  · exact patchSeq_two_candidate_appends code d now r1 r2 c1 c2 hlive
  · obtain ⟨p, hok, hy, hx, hs, hr⟩ :=
      patchSeq_two_candidate_appends code d now r2 r1 c2 c1 hlive
    exact ⟨p, hok, hx, hy, hs, hr⟩
  · intro v
    exact ⟨rfl, rfl⟩

/-- Witness for patch_concurrent_candidate_appends: concurrent sender and
receiver candidate appends on a concrete live session document. -/
theorem patch_concurrent_candidate_appends_witness :
    isStaleDoc (⟨"f", 1, "t", 0, some 100, true, true, false, none, none,
        ["s0"], ["r0"]⟩ : SessionDoc) 0 = false ∧
    ((∃ p, (getSession 111111 (applyPatchSeq (some ⟨"f", 1, "t", 0,
          some 100, true, true, false, none, none, ["s0"], ["r0"]⟩) 0
        [mkCandidatePatch .sender "a", mkCandidatePatch .receiver "b"]) 0).1
          = .ok p ∧
      "a" ∈ payloadCandidates .sender p ∧ "b" ∈ payloadCandidates .receiver p ∧
      (∀ z ∈ (⟨"f", 1, "t", 0, some 100, true, true, false, none, none,
          ["s0"], ["r0"]⟩ : SessionDoc).senderIceCandidates,
        z ∈ p.senderIceCandidates) ∧
      (∀ z ∈ (⟨"f", 1, "t", 0, some 100, true, true, false, none, none,
          ["s0"], ["r0"]⟩ : SessionDoc).receiverIceCandidates,
        z ∈ p.receiverIceCandidates)) ∧
    (∃ p, (getSession 111111 (applyPatchSeq (some ⟨"f", 1, "t", 0,
          some 100, true, true, false, none, none, ["s0"], ["r0"]⟩) 0
        [mkCandidatePatch .receiver "b", mkCandidatePatch .sender "a"]) 0).1
          = .ok p ∧
      "a" ∈ payloadCandidates .sender p ∧ "b" ∈ payloadCandidates .receiver p ∧
      (∀ z ∈ (⟨"f", 1, "t", 0, some 100, true, true, false, none, none,
          ["s0"], ["r0"]⟩ : SessionDoc).senderIceCandidates,
        z ∈ p.senderIceCandidates) ∧
      (∀ z ∈ (⟨"f", 1, "t", 0, some 100, true, true, false, none, none,
          ["s0"], ["r0"]⟩ : SessionDoc).receiverIceCandidates,
        z ∈ p.receiverIceCandidates)) ∧
    (∀ v : Bool,
      (applyPatchFields (⟨"f", 1, "t", 0, some 100, true, true, false,
          none, none, ["s0"], ["r0"]⟩ : SessionDoc)
        { senderConnected := some v }).senderConnected = v ∧
      (applyPatchFields (⟨"f", 1, "t", 0, some 100, true, true, false,
          none, none, ["s0"], ["r0"]⟩ : SessionDoc)
        { active := some v }).active = v)) :=
  ⟨by decide,
    patch_concurrent_candidate_appends 111111 _ 0 .sender .receiver "a" "b"
      (by decide)⟩

/-- Claim C9: a create request whose body has a falsy fileName or a
falsy fileSize — including a fileSize of exactly 0 — is answered with
status 400 and the error text fileName and fileSize are required, no
session document is created (the store is unchanged), and the
code-generation loop is never entered. -/
theorem create_rejects_falsy_input (store : Store) (now : Nat)
    (fileName : String) (fileSize : Nat) (fileType : String)
    (seeds : Nat → Nat) (h : fileName = "" ∨ fileSize = 0) :
    postCreate store now fileName fileSize fileType seeds
      = (.badRequest "fileName and fileSize are required", store) ∧
    postStatus (postCreate store now fileName fileSize fileType seeds).1
      = 400 ∧
    (postCreate store now fileName fileSize fileType seeds).2 = store := by
  have heq : postCreate store now fileName fileSize fileType seeds
      = (.badRequest "fileName and fileSize are required", store) := by
    unfold postCreate
    rw [if_pos h]
  exact ⟨heq, by rw [heq]; rfl, by rw [heq]⟩

/-- Witness for create_rejects_falsy_input: a zero-byte file request on
the empty store. -/
theorem create_rejects_falsy_input_witness :
    (("a.txt" : String) = "" ∨ (0 : Nat) = 0) ∧
    (postCreate (fun _ => none) 7 "a.txt" 0 "text/plain" (fun _ => 0)
        = (.badRequest "fileName and fileSize are required", fun _ => none) ∧
      postStatus (postCreate (fun _ => none) 7 "a.txt" 0 "text/plain"
        (fun _ => 0)).1 = 400 ∧
      (postCreate (fun _ => none) 7 "a.txt" 0 "text/plain"
        (fun _ => 0)).2 = fun _ => none) :=
  ⟨Or.inr rfl,
    create_rejects_falsy_input (fun _ => none) 7 "a.txt" 0 "text/plain"
      (fun _ => 0) (Or.inr rfl)⟩

lemma generateCode_six_digits (seed : Nat) :
    isSixDigitCode (generateCode seed) := by
  have h : seed % 900000 < 900000 := Nat.mod_lt _ (by decide)
  unfold isSixDigitCode generateCode
  omega

lemma newSessionDoc_live (now : Nat) (fileName : String) (fileSize : Nat)
    (fileType : String) :
    isStaleDoc (newSessionDoc now fileName fileSize fileType) now = false := by
  simp [isStaleDoc, isExpiredDoc, newSessionDoc, SESSION_TTL_MS]

lemma createLoop_spec (store : Store) (now : Nat) (fileName : String)
    (fileSize : Nat) (fileType : String) (seeds : Nat → Nat) :
    ∀ (fuel i : Nat),
      (∀ code exp st2,
        createLoop store now fileName fileSize fileType seeds i fuel
          = (.created code exp, st2) →
        isSixDigitCode code ∧ exp = now + SESSION_TTL_MS ∧
        st2 code = some (newSessionDoc now fileName fileSize fileType)) ∧
      (∀ e st2,
        createLoop store now fileName fileSize fileType seeds i fuel
          = (.exhausted e, st2) →
        st2 = store ∧ ∀ j, i ≤ j → j < i + fuel →
          ∃ d, store (generateCode (seeds j)) = some d ∧
            isStaleDoc d now = false) := by
  intro fuel
  induction fuel with
  | zero =>
    intro i
    constructor
    · intro code exp st2 hrun
      rw [createLoop] at hrun
      cases hrun
    · intro e st2 hrun
      rw [createLoop] at hrun
      injection hrun with h1 h2
      subst h2
      exact ⟨rfl, fun j hij hj => by omega⟩
  | succ fuel ih =>
    intro i
    constructor
    · intro code exp st2 hrun
      rw [createLoop] at hrun
      rcases hcode : store (generateCode (seeds i)) with _ | d
      · rw [hcode] at hrun
        simp only at hrun
        injection hrun with h1 h2
        injection h1 with hc he
        subst hc
        subst he
        subst h2
        refine ⟨generateCode_six_digits _, rfl, ?_⟩
        simp [setStore]
      · rw [hcode] at hrun
        simp only at hrun
        by_cases hstale : isStaleDoc d now
        · rw [if_pos hstale] at hrun
          injection hrun with h1 h2
          injection h1 with hc he
          subst hc
          subst he
          subst h2
          refine ⟨generateCode_six_digits _, rfl, ?_⟩
          simp [setStore]
        · rw [if_neg hstale] at hrun
          exact ((ih (i + 1)).1 code exp st2 hrun)
    · intro e st2 hrun
      rw [createLoop] at hrun
      rcases hcode : store (generateCode (seeds i)) with _ | d
      · rw [hcode] at hrun
        simp only at hrun
        cases hrun
      · rw [hcode] at hrun
        simp only at hrun
        by_cases hstale : isStaleDoc d now
        · rw [if_pos hstale] at hrun
          cases hrun
        · rw [if_neg hstale] at hrun
          obtain ⟨hst, hall⟩ := (ih (i + 1)).2 e st2 hrun
          refine ⟨hst, fun j hij hj => ?_⟩
          by_cases hji : j = i
          · subst hji
            exact ⟨d, hcode, by simpa using hstale⟩
          · exact hall j (by omega) (by omega)

/-- Claim C5 (amended): for valid input, create answers either 201 with
a code of the 6-digit format and a 30-minute TTL from creation time —
in which case an immediate GET on that code answers 200 with a
non-expired session whose fileName and fileSize equal the submitted
fields and whose fileType is the submitted fileType when that is
non-empty (truthy) and the application/octet-stream default when the
submitted fileType is empty — or the allocation-exhausted 500 error,
and the latter only after all 50 attempted codes collided with live
(non-expired, active) sessions, the store being left unchanged; a code
whose existing session is expired or inactive is reused on the first
attempt. -/
theorem create_session_spec (store : Store) (now : Nat) (fileName : String)
    (fileSize : Nat) (fileType : String) (seeds : Nat → Nat)
    (hname : fileName ≠ "") (hsize : fileSize ≠ 0) :
    (∀ code exp,
      (postCreate store now fileName fileSize fileType seeds).1
        = .created code exp →
      isSixDigitCode code ∧ exp = now + SESSION_TTL_MS ∧
      (getSession code
          ((postCreate store now fileName fileSize fileType seeds).2 code)
          now).1
        = .ok (sessionPayload code
            (newSessionDoc now fileName fileSize fileType)) ∧
      (sessionPayload code
          (newSessionDoc now fileName fileSize fileType)).fileName
        = fileName ∧
      (sessionPayload code
          (newSessionDoc now fileName fileSize fileType)).fileSize
        = fileSize ∧
      (sessionPayload code
          (newSessionDoc now fileName fileSize fileType)).fileType
        = (if fileType = "" then "application/octet-stream" else fileType)) ∧
    (∀ e st2,
      postCreate store now fileName fileSize fileType seeds
        = (.exhausted e, st2) →
      st2 = store ∧ ∀ j, j < 50 →
        ∃ d, store (generateCode (seeds j)) = some d ∧
          isStaleDoc d now = false) ∧
    (∀ d, store (generateCode (seeds 0)) = some d →
      isStaleDoc d now = true →
      (postCreate store now fileName fileSize fileType seeds).1
        = .created (generateCode (seeds 0)) (now + SESSION_TTL_MS)) := by
  have hvalid : ¬(fileName = "" ∨ fileSize = 0) := by
    rintro (h | h)
    · exact hname h
    · exact hsize h
  have hpost : postCreate store now fileName fileSize fileType seeds
      = createLoop store now fileName fileSize fileType seeds 0 50 := by
    unfold postCreate
    rw [if_neg hvalid]
  refine ⟨?_, ?_, ?_⟩
  · intro code exp hrun
    have hpair : createLoop store now fileName fileSize fileType seeds 0 50
        = (.created code exp,
            (postCreate store now fileName fileSize fileType seeds).2) := by
      rw [← hpost, ← hrun]
    obtain ⟨h6, hexp, hdoc⟩ :=
      (createLoop_spec store now fileName fileSize fileType seeds 50 0).1
        code exp _ hpair
    refine ⟨h6, hexp, ?_, rfl, rfl, rfl⟩
    rw [hdoc]
    simp [getSession, newSessionDoc_live]
  · intro e st2 hrun
    rw [hpost] at hrun
    obtain ⟨hst, hall⟩ :=
      (createLoop_spec store now fileName fileSize fileType seeds 50 0).2
        e st2 hrun
    exact ⟨hst, fun j hj => hall j (by omega) (by omega)⟩
  · intro d hcode hstale
    rw [hpost, createLoop, hcode]
    simp only
    rw [if_pos hstale]

/-- Witness for create_session_spec: creating a 1-byte file session on
the empty store at time 0 with the constant seed stream. -/
theorem create_session_spec_witness :
    (("f.bin" : String) ≠ "" ∧ (1 : Nat) ≠ 0) ∧
    ((∀ code exp,
      (postCreate (fun _ => none) 0 "f.bin" 1 "text/plain" (fun _ => 0)).1
        = .created code exp →
      isSixDigitCode code ∧ exp = 0 + SESSION_TTL_MS ∧
      (getSession code
          ((postCreate (fun _ => none) 0 "f.bin" 1 "text/plain"
            (fun _ => 0)).2 code) 0).1
        = .ok (sessionPayload code (newSessionDoc 0 "f.bin" 1 "text/plain")) ∧
      (sessionPayload code (newSessionDoc 0 "f.bin" 1 "text/plain")).fileName
        = "f.bin" ∧
      (sessionPayload code (newSessionDoc 0 "f.bin" 1 "text/plain")).fileSize
        = 1 ∧
      (sessionPayload code (newSessionDoc 0 "f.bin" 1 "text/plain")).fileType
        = (if ("text/plain" : String) = "" then "application/octet-stream"
            else "text/plain")) ∧
    (∀ e st2,
      postCreate (fun _ => none) 0 "f.bin" 1 "text/plain" (fun _ => 0)
        = (.exhausted e, st2) →
      st2 = (fun _ => none) ∧ ∀ j, j < 50 →
        ∃ d, (fun _ => none : Store) (generateCode 0) = some d ∧
          isStaleDoc d 0 = false) ∧
    (∀ d, (fun _ => none : Store) (generateCode 0) = some d →
      isStaleDoc d 0 = true →
      (postCreate (fun _ => none) 0 "f.bin" 1 "text/plain" (fun _ => 0)).1
        = .created (generateCode 0) (0 + SESSION_TTL_MS))) :=
  ⟨⟨by decide, by decide⟩,
    create_session_spec (fun _ => none) 0 "f.bin" 1 "text/plain" (fun _ => 0)
      (by decide) (by decide)⟩

/-- Counterexample to claim C5 as stated: creating a session with an
empty (falsy) submitted fileType — the File.type of an extensionless
file — succeeds, but the session stored and returned carries the
application/octet-stream default (src/unnamed/part_005 line 213), not
the submitted field, so the fetched session's fileType does not match
the submission. -/
theorem create_filetype_default_counterexample :
    (postCreate (fun _ => none) 0 "f.bin" 1 "" (fun _ => 0)).1
      = .created (generateCode 0) (0 + SESSION_TTL_MS) ∧
    (getSession (generateCode 0)
        ((postCreate (fun _ => none) 0 "f.bin" 1 "" (fun _ => 0)).2
          (generateCode 0)) 0).1
      = .ok (sessionPayload (generateCode 0) (newSessionDoc 0 "f.bin" 1 "")) ∧
    (sessionPayload (generateCode 0) (newSessionDoc 0 "f.bin" 1 "")).fileType
      = "application/octet-stream" ∧
    ("" : String) ≠ "application/octet-stream" := by
  refine ⟨by decide, by decide, rfl, by decide⟩

lemma iceRun_candidates_no_remote (cs : List String) (st : IceState)
    (h : st.remoteDescription = none) :
    iceRun st (cs.map IceEvent.candidate)
      = { st with pending := st.pending ++ cs } := by
  induction cs generalizing st with
  | nil => simp [iceRun]
  | cons c cs ih =>
    simp only [List.map_cons, iceRun, List.foldl_cons]
    have hstep : iceStep st (.candidate c)
        = { st with pending := st.pending ++ [c] } := by
      simp [iceStep, handleIceCandidate, h]
    rw [hstep]
    have := ih { st with pending := st.pending ++ [c] } (by simpa using h)
    simp only [iceRun] at this
    rw [this]
    simp

lemma iceRun_candidates_with_remote (cs : List String) (st : IceState)
    (sdp : String) (h : st.remoteDescription = some sdp) :
    iceRun st (cs.map IceEvent.candidate)
      = { st with applied := st.applied ++ cs } := by
  induction cs generalizing st with
  | nil => simp [iceRun]
  | cons c cs ih =>
    simp only [List.map_cons, iceRun, List.foldl_cons]
    have hstep : iceStep st (.candidate c)
        = { st with applied := st.applied ++ [c] } := by
      simp [iceStep, handleIceCandidate, h]
    rw [hstep]
    have := ih { st with applied := st.applied ++ [c] } (by simpa using h)
    simp only [iceRun] at this
    rw [this]
    simp

lemma iceRun_candidates_with_remote_mk (cs : List String) (sdp : String)
    (pend app : List String) :
    iceRun { remoteDescription := some sdp, pending := pend, applied := app }
        (cs.map IceEvent.candidate)
      = { remoteDescription := some sdp, pending := pend,
          applied := app ++ cs } := by
  rw [iceRun_candidates_with_remote cs
    { remoteDescription := some sdp, pending := pend, applied := app } sdp rfl]

/-- Counterexample to claim C6 as stated: handleOffer awaits
createAnswer and setLocalDescription between setting the remote
description and calling flushPendingIceCandidates, and a candidate
delivered in that window sees a remote description present and is added
immediately — ahead of the still-queued earlier candidate. With
candidate a queued before the offer and candidate b arriving in the
window, the applied order is b then a, so the queued candidate is not
applied before or together with the candidate that arrived after it. -/
theorem ice_flush_window_counterexample :
    iceRun initIceState
        [.candidate "a", .remoteDescSet "offer", .candidate "b",
          .flushPending]
      = { remoteDescription := some "offer", pending := [],
          applied := ["b", "a"] } ∧
    (["b", "a"] : List String) ≠ ["a", "b"] := by
  constructor
  · rfl
  · decide

/-- Claim C6 (amended): candidates arriving while the peer connection
has no remote description are all queued (none dropped, none applied),
and the flushPendingIceCandidates call applies the whole queue in its
original arrival order; candidates arriving after the flush are applied
after the queued ones, but a candidate arriving in the awaited window
between setRemoteDescription and the flush is applied immediately,
ahead of the queued candidates. -/
theorem ice_candidates_queued_then_flushed (cs1 csMid cs2 : List String)
    (sdp : String) :
    iceRun initIceState (cs1.map IceEvent.candidate)
      = { remoteDescription := none, pending := cs1, applied := [] } ∧
    iceRun initIceState
        (cs1.map IceEvent.candidate ++ [IceEvent.remoteDescSet sdp]
          ++ csMid.map IceEvent.candidate ++ [IceEvent.flushPending]
          ++ cs2.map IceEvent.candidate)
      = { remoteDescription := some sdp, pending := [],
          applied := csMid ++ cs1 ++ cs2 } := by
  have h1 : iceRun initIceState (cs1.map IceEvent.candidate)
      = { remoteDescription := none, pending := cs1, applied := [] } := by
    rw [iceRun_candidates_no_remote cs1 initIceState rfl]
    simp [initIceState]
  refine ⟨h1, ?_⟩
  have happ : ∀ (st : IceState) (l1 l2 : List IceEvent),
      iceRun st (l1 ++ l2) = iceRun (iceRun st l1) l2 := by
    intro st l1 l2
    simp [iceRun]
  rw [happ, happ, happ, happ, h1]
  have h2 : iceRun
        { remoteDescription := none, pending := cs1,
          applied := ([] : List String) }
        [IceEvent.remoteDescSet sdp]
      = { remoteDescription := some sdp, pending := cs1, applied := [] } :=
    rfl
  rw [h2, iceRun_candidates_with_remote_mk csMid sdp cs1 []]
  have h3 : iceRun
        { remoteDescription := some sdp, pending := cs1,
          applied := ([] : List String) ++ csMid }
        [IceEvent.flushPending]
      = { remoteDescription := some sdp, pending := [],
          applied := (([] : List String) ++ csMid) ++ cs1 } :=
    rfl
  rw [h3, iceRun_candidates_with_remote_mk cs2 sdp [] (([] ++ csMid) ++ cs1)]
  simp

/-- Counterexample to claim C7 as stated: a connection attempt that
fails because ICE gathering completed with zero usable candidates (the
no-ice reason produced by inspectPeerConnection) is not surfaced
immediately — finalizeFailure schedules a retry of the same attempt
context whenever the attempt number is below the bound, exactly as it
does for the transient failure classes. -/
theorem no_route_retried_counterexample :
    detectNoIce true 0 = true ∧
    (1 : Nat) < PEER_MAX_CONNECT_ATTEMPTS ∧
    finalizeFailure false 1 "no-ice" = .retry 2 := by
  refine ⟨rfl, by decide, ?_⟩
  rfl

/-- Claim C7 (amended): every failure reason, the no-ice (no usable ICE
candidate) case included, is retried with the next attempt number while
the attempt count is below PEER_MAX_CONNECT_ATTEMPTS; only once attempts
are exhausted is the failure surfaced, and at that point the no-ice
reason is distinguished by the terminal message advising a TURN/relay
server, every other reason receiving the generic connection-failure
message; an aborted attempt context only closes the connection. -/
theorem failure_retry_policy (attempt : Nat) (reason : String) :
    (attempt < PEER_MAX_CONNECT_ATTEMPTS →
      finalizeFailure false attempt reason = .retry (attempt + 1)) ∧
    (PEER_MAX_CONNECT_ATTEMPTS ≤ attempt →
      finalizeFailure false attempt "no-ice" = .surface noRouteMessage ∧
      (reason ≠ "no-ice" →
        finalizeFailure false attempt reason
          = .surface genericFailureMessage)) ∧
    finalizeFailure true attempt reason = .abortClose := by
  refine ⟨?_, ?_, rfl⟩
  · intro hlt
    unfold finalizeFailure
    rw [if_neg (by simp), if_pos hlt]
  · intro hge
    have hnlt : ¬attempt < PEER_MAX_CONNECT_ATTEMPTS := by omega
    constructor
    · unfold finalizeFailure
      rw [if_neg (by simp), if_neg hnlt, if_pos rfl]
    · intro hne
      unfold finalizeFailure
      rw [if_neg (by simp), if_neg hnlt, if_neg hne]

/-- Witness for failure_retry_policy at attempts 1 and 4 with the
timeout reason. -/
theorem failure_retry_policy_witness :
    ((1 : Nat) < PEER_MAX_CONNECT_ATTEMPTS ∧
      finalizeFailure false 1 "timeout" = .retry 2) ∧
    (PEER_MAX_CONNECT_ATTEMPTS ≤ 4 ∧
      finalizeFailure false 4 "no-ice" = .surface noRouteMessage ∧
      ("timeout" : String) ≠ "no-ice" ∧
      finalizeFailure false 4 "timeout" = .surface genericFailureMessage) ∧
    finalizeFailure true 1 "timeout" = .abortClose :=
  ⟨⟨by decide, (failure_retry_policy 1 "timeout").1 (by decide)⟩,
    ⟨by decide,
      ((failure_retry_policy 4 "timeout").2.1 (by decide)).1,
      by decide,
      ((failure_retry_policy 4 "timeout").2.1 (by decide)).2 (by decide)⟩,
    (failure_retry_policy 1 "timeout").2.2⟩

/-- Counterexample to claim C8 as stated: a receiver joining a room that
already holds the sender succeeds, yet when the joiner reuses the
member's peerId the relay sends no peer-joined notification to either
side — handleJoin looks for the other member by comparing peerIds, so it
finds nobody. The claim's promise that both sides are notified whenever
another member was already present fails at this input. -/
theorem join_notification_counterexample :
    (([⟨0, .sender, "p"⟩] : List RelayClient)).length = 1 ∧
    handleJoin [⟨0, .sender, "p"⟩] 1 "123456" .receiver "p"
      = ([⟨0, .sender, "p"⟩, ⟨1, .receiver, "p"⟩],
          [(1, .joined "123456" .receiver)]) := by
  constructor
  · rfl
  · decide

/-- Claim C8 (amended): a join addressed to a room with 2 members, or
with a member of the same role already present, is answered with the
corresponding error and leaves the membership unchanged; a successful
join appends the client and answers joined, and when a member with a
peerId different from the joiner's was already present, both sides
receive a peer-joined notification carrying the other party's role and
peerId — a member holding the same peerId as the joiner triggers no
notification. -/
theorem join_room_policy (room : List RelayClient) (wsId : Nat)
    (roomCode : String) (role : Role) (peerId : String)
    (hcode : roomCode ≠ "") (hpeer : peerId ≠ "") :
    (2 ≤ room.length →
      handleJoin room wsId roomCode role peerId
        = (room, [(wsId, .errorMsg "Room is full")])) ∧
    (room.length < 2 → (∃ c ∈ room, c.role = role) →
      handleJoin room wsId roomCode role peerId
        = (room,
            [(wsId, .errorMsg (roleName role ++ " already exists in this room"))])) ∧
    (room.length < 2 → (∀ c ∈ room, c.role ≠ role) →
      (handleJoin room wsId roomCode role peerId).1
        = room ++ [⟨wsId, role, peerId⟩] ∧
      ((∀ c ∈ room, c.peerId = peerId) →
        (handleJoin room wsId roomCode role peerId).2
          = [(wsId, .joined roomCode role)]) ∧
      (∀ other ∈ room, other.peerId ≠ peerId →
        (handleJoin room wsId roomCode role peerId).2
          = [(wsId, .joined roomCode role),
              (other.wsId, .peerJoined role peerId),
              (wsId, .peerJoined other.role other.peerId)])) := by
  have hmf : ¬(roomCode = "" ∨ peerId = "") := by
    rintro (h | h)
    · exact hcode h
    · exact hpeer h
  refine ⟨?_, ?_, ?_⟩
  · intro h2
    unfold handleJoin
    rw [if_neg hmf, if_pos h2]
  · intro hlt hex
    have hsome : (room.find? (fun c => c.role = role)).isSome = true := by
      rw [List.find?_isSome]
      obtain ⟨c, hc, hrole⟩ := hex
      exact ⟨c, hc, by simpa using hrole⟩
    unfold handleJoin
    rw [if_neg hmf, if_neg (by omega), if_pos hsome]
  · intro hlt hall
    rcases room with _ | ⟨c0, rest⟩
    · have hnone : (List.find? (fun c => c.role = role)
          ([] : List RelayClient)).isSome = true → False := by
        simp [List.find?]
      refine ⟨?_, ?_, ?_⟩
      · unfold handleJoin
        rw [if_neg hmf, if_neg (by simp), if_neg hnone]
        simp [List.find?]
      · intro _
        unfold handleJoin
        rw [if_neg hmf, if_neg (by simp), if_neg hnone]
        simp [List.find?]
      · intro other hmem
        cases hmem
    · rcases rest with _ | ⟨c1, rest'⟩
      · have hrole : ¬c0.role = role := hall c0 (by simp)
        have hnone : (List.find? (fun c => c.role = role)
            [c0]).isSome = true → False := by
          simp [List.find?, hrole]
        by_cases hp : c0.peerId = peerId
        · have hfind : ([c0, ⟨wsId, role, peerId⟩] : List RelayClient).find?
              (fun c => c.peerId ≠ peerId) = none := by
            simp [List.find?, hp]
          refine ⟨?_, ?_, ?_⟩
          · unfold handleJoin
            rw [if_neg hmf, if_neg (by simp), if_neg hnone]
            simp only [List.cons_append, List.nil_append, hfind]
          · intro _
            unfold handleJoin
            rw [if_neg hmf, if_neg (by simp), if_neg hnone]
            simp only [List.cons_append, List.nil_append, hfind]
          · intro other hmem hne
            have : other = c0 := by simpa using hmem
            subst this
            exact absurd hp hne
        · have hfind : ([c0, ⟨wsId, role, peerId⟩] : List RelayClient).find?
              (fun c => c.peerId ≠ peerId) = some c0 := by
            simp [List.find?, hp]
          refine ⟨?_, ?_, ?_⟩
          · unfold handleJoin
            rw [if_neg hmf, if_neg (by simp), if_neg hnone]
            simp only [List.cons_append, List.nil_append, hfind]
          · intro hallp
            exact absurd (hallp c0 (by simp)) hp
          · intro other hmem hne
            have : other = c0 := by simpa using hmem
            subst this
            unfold handleJoin
            rw [if_neg hmf, if_neg (by simp), if_neg hnone]
            simp only [List.cons_append, List.nil_append, hfind]
      · simp only [List.length_cons] at hlt
        omega

/-- Witness for join_room_policy: the sender with peerId p already in
room 123456, joined by the receiver with peerId q. -/
theorem join_room_policy_witness :
    (("123456" : String) ≠ "" ∧ ("q" : String) ≠ "") ∧
    ((2 ≤ ([⟨0, .sender, "p"⟩] : List RelayClient).length →
      handleJoin [⟨0, .sender, "p"⟩] 1 "123456" .receiver "q"
        = ([⟨0, .sender, "p"⟩], [(1, .errorMsg "Room is full")])) ∧
    (([⟨0, .sender, "p"⟩] : List RelayClient).length < 2 →
      (∃ c ∈ ([⟨0, .sender, "p"⟩] : List RelayClient), c.role = .receiver) →
      handleJoin [⟨0, .sender, "p"⟩] 1 "123456" .receiver "q"
        = ([⟨0, .sender, "p"⟩],
            [(1, .errorMsg (roleName .receiver ++ " already exists in this room"))])) ∧
    (([⟨0, .sender, "p"⟩] : List RelayClient).length < 2 →
      (∀ c ∈ ([⟨0, .sender, "p"⟩] : List RelayClient), c.role ≠ .receiver) →
      (handleJoin [⟨0, .sender, "p"⟩] 1 "123456" .receiver "q").1
        = [⟨0, .sender, "p"⟩] ++ [⟨1, .receiver, "q"⟩] ∧
      ((∀ c ∈ ([⟨0, .sender, "p"⟩] : List RelayClient), c.peerId = "q") →
        (handleJoin [⟨0, .sender, "p"⟩] 1 "123456" .receiver "q").2
          = [(1, .joined "123456" .receiver)]) ∧
      (∀ other ∈ ([⟨0, .sender, "p"⟩] : List RelayClient),
        other.peerId ≠ "q" →
        (handleJoin [⟨0, .sender, "p"⟩] 1 "123456" .receiver "q").2
          = [(1, .joined "123456" .receiver),
              (other.wsId, .peerJoined .receiver "q"),
              (1, .peerJoined other.role other.peerId)]))) :=
  ⟨⟨by decide, by decide⟩,
    join_room_policy [⟨0, .sender, "p"⟩] 1 "123456" .receiver "q"
      (by decide) (by decide)⟩

end ShareThisSite
